import Mathlib

/-!
Shallow embedding of the DOM-injection script of `cargo-cpl`
(`src/injection/index.ts`, two variants, and `src/unnamed/part_000`).
-/

set_option maxHeartbeats 1000000

/-- A DOM node: a text node or an element with a tag name, an attribute
list (name, value) and a child list.  Tag names are stored the way
`Element.tagName` reports them in an HTML document: upper-cased. -/
inductive Node where
  | text (s : String) : Node
  | elem (tag : String) (attrs : List (String × String)) (children : List Node) : Node
deriving Repr

/-- `document.createElement`.  The DOM upper-cases the tag name of an HTML
element (`createElement("h1")` yields an element whose `tagName` is `"H1"`),
so every call site below passes the tag name already upper-cased, the way
`Element.tagName` reports it. -/
def createElement (tag : String) (attrs : List (String × String))
    (children : List Node) : Node :=
  Node.elem tag attrs children

/-- Split a class-attribute value into its whitespace-separated tokens,
as CSS class selectors do. -/
def splitClassTokens : List Char → List Char → List String
  | [], cur => if cur.isEmpty then [] else [String.mk cur.reverse]
  | c :: rest, cur =>
    if c = ' ' then
      if cur.isEmpty then splitClassTokens rest []
      else String.mk cur.reverse :: splitClassTokens rest []
    else splitClassTokens rest (c :: cur)

/-- Whether an attribute list carries a `class` attribute one of whose
tokens is `c` (the semantics of the CSS selector `.c`). -/
def classListContains (attrs : List (String × String)) (c : String) : Bool :=
  match attrs.lookup "class" with
  | some v => (splitClassTokens v.data []).contains c
  | none => false

/-- Whether the CSS selector `.section-header` matches the node. -/
def isSectionHeader : Node → Bool
  | Node.text _ => false
  | Node.elem _ attrs _ => classListContains attrs "section-header"

/-- The tag-name mapping of `downgradeSectionHeaders` (the `switch` on
`sectionHeader.tagName`, identical in all three source variants). -/
def mapHeaderTag : String → String
  | "H1" => "H2"
  | "H2" => "H3"
  | "H3" => "H4"
  | "H4" => "H5"
  | "H5" => "H6"
  | t => t

mutual
/-- Effect of `downgradeSectionHeaders` on one node of the container's
subtree: an element matching `.section-header` is replaced by an element
with the mapped tag, the same attributes and the same children; the
static `querySelectorAll` list covers every matching descendant, so the
children are themselves processed. -/
def downgradeNode : Node → Node
  | Node.text s => Node.text s
  | Node.elem t a cs =>
    if classListContains a "section-header" then
      Node.elem (mapHeaderTag t) a (downgradeList cs)
    else
      Node.elem t a (downgradeList cs)

/-- `downgradeSectionHeaders` applied to a child list. -/
def downgradeList : List Node → List Node
  | [] => []
  | n :: ns => downgradeNode n :: downgradeList ns
end

mutual
/-- Structural equality test for nodes. -/
def Node.beq : Node → Node → Bool
  | Node.text s, Node.text t => s == t
  | Node.elem t1 a1 c1, Node.elem t2 a2 c2 => t1 == t2 && a1 == a2 && Node.beqList c1 c2
  | _, _ => false

/-- Structural equality test for node lists. -/
def Node.beqList : List Node → List Node → Bool
  | [], [] => true
  | n :: ns, m :: ms => Node.beq n m && Node.beqList ns ms
  | _, _ => false
end

/-- The tag name of a node (empty for a text node). -/
def Node.tagName : Node → String
  | Node.text _ => ""
  | Node.elem t _ _ => t

/-- The child list of a node (empty for a text node). -/
def Node.childNodes : Node → List Node
  | Node.text _ => []
  | Node.elem _ _ cs => cs

/-- `getAttribute`: the value of the first attribute with the given name. -/
def Node.getAttr : Node → String → Option String
  | Node.text _, _ => none
  | Node.elem _ attrs _, name => attrs.lookup name

/-- `createHeader` (identical in both halves of `src/injection/index.ts` and
in `src/unnamed/part_000`): an `h1` element with the given `id`, marked with
the `section-header` class, wrapping an anchor to its own fragment. -/
def createHeader (name : String) (id : String) : Node :=
  createElement "H1" [("id", id), ("class", "section-header")]
    [createElement "A" [("href", "#" ++ id)] [Node.text name]]

/-- `createMark` (in the `registerModification` half of `index.ts` and in
`part_000`): an emoji `img` element. -/
def createMark (src : String) (char : String) : Node :=
  createElement "IMG"
    [("src", src), ("alt", char), ("title", char), ("width", "20"), ("height", "20")] []

/-- `createHeavyCheckMark`. -/
def createHeavyCheckMark : Node :=
  createMark "https://github.githubassets.com/images/icons/emoji/unicode/2714.png" "✔"

/-- `createWarningMark`. -/
def createWarningMark : Node :=
  createMark "https://github.githubassets.com/images/icons/emoji/unicode/26a0.png" "⚠"

/-- The `li` built for one `(problemURL, blobURL)` pair by the
`for (const [problemURL, blobURL] of verifiedWith)` loop, which is identical
in every variant of `createVerifiedWithSection`. -/
def verifiedItem (pr : String × String) : Node :=
  createElement "LI" []
    [createElement "A" [("href", pr.1)] [Node.text pr.1],
     Node.text " (",
     createElement "A" [("href", pr.2)] [Node.text "code"],
     Node.text ")"]

/-- `createVerifiedWithSection` as it appears in the `registerModification`
half of `src/injection/index.ts` (lines 200-237) and, identically, in
`src/unnamed/part_000` (lines 83-112): a `div` opening with a status line
chosen by `switch (verifiedWith.length)` and closing with the `ul` of the
pairs. -/
def createVerifiedWithSection (verifiedWith : List (String × String)) : Node :=
  let status : List Node :=
    match verifiedWith.length with
    | 0 => [createElement "STRONG" []
        [createWarningMark, Node.text " This library is not verified."]]
    | 1 => [createHeavyCheckMark, Node.text " This library verified with 1 solution."]
    | _ => [createHeavyCheckMark,
        Node.text (" This library verified with " ++ toString verifiedWith.length
          ++ " solutions.")]
  createElement "DIV" [] (status ++ [createElement "UL" [] (verifiedWith.map verifiedItem)])

/-- `createToggleWrapper` (in the `registerModification` half of `index.ts`
and in `part_000`): the collapse/expand control inserted next to a freshly
created docblock. -/
def createToggleWrapper : Node :=
  createElement "DIV" [("class", "toggle-wrapper")]
    [createElement "A" [("class", "collapse-toggle"), ("href", "javascript:void(0)")]
      [Node.text "[",
       createElement "SPAN" [("class", "inner")] [Node.text "-"],
       Node.text "] ",
       createElement "SPAN" [("class", "toggle-label"), ("style", "display: none;")]
         [Node.text " Expand description"]]]

/-- `String.prototype.endsWith`, decided on the character lists: whether
`pathname` ends with `tail`.  Models the
`window.location.pathname.endsWith("/index.html")` test of both
`registerModification` variants. -/
def locationEndsWith (pathname tail : String) : Bool :=
  tail.data.isSuffixOf pathname.data

/-- Whether the CSS selector `.docblock` matches the node. -/
def isDocblock : Node → Bool
  | Node.text _ => false
  | Node.elem _ attrs _ => classListContains attrs "docblock"

/-- Whether the CSS selector `.fqn` matches the node. -/
def isFqn : Node → Bool
  | Node.text _ => false
  | Node.elem _ attrs _ => classListContains attrs "fqn"

mutual
/-- Whether some node of the subtree rooted at `n` satisfies `p`. -/
def existsMatchNode (p : Node → Bool) : Node → Bool
  | Node.text s => p (Node.text s)
  | Node.elem t a cs => p (Node.elem t a cs) || existsMatchList p cs

/-- Whether some node of the forest satisfies `p`. -/
def existsMatchList (p : Node → Bool) : List Node → Bool
  | [] => false
  | n :: ns => existsMatchNode p n || existsMatchList p ns
end

mutual
/-- Replace the first node (in document pre-order) satisfying `p` by `f` of
it; `none` when no node matches.  This models `document.querySelector`
followed by a mutation of the found element. -/
def replaceFirstNode (p : Node → Bool) (f : Node → Node) : Node → Option Node
  | Node.text _ => none
  | Node.elem t a cs =>
    if p (Node.elem t a cs) then some (f (Node.elem t a cs))
    else (replaceFirstList p f cs).map (Node.elem t a)

/-- `replaceFirstNode` over a forest: the first match in pre-order,
earlier roots first. -/
def replaceFirstList (p : Node → Bool) (f : Node → Node) : List Node → Option (List Node)
  | [] => none
  | n :: ns =>
    match replaceFirstNode p f n with
    | some n2 => some (n2 :: ns)
    | none => (replaceFirstList p f ns).map (n :: ·)
end

mutual
/-- Insert `new` right after the first node (in document pre-order)
satisfying `p`, as its following siblings; `none` when no node matches.
This models `querySelector` followed by `insertAdjacentElement("afterend")`
calls. -/
def insertAfterNode (p : Node → Bool) (ins : List Node) : Node → Option Node
  | Node.text _ => none
  | Node.elem t a cs => (insertAfterList p ins cs).map (Node.elem t a)

/-- `insertAfterNode` over a forest. -/
def insertAfterList (p : Node → Bool) (ins : List Node) : List Node → Option (List Node)
  | [] => none
  | n :: ns =>
    if p n then some (n :: (ins ++ ns))
    else
      match insertAfterNode p ins n with
      | some n2 => some (n2 :: ns)
      | none => (insertAfterList p ins ns).map (n :: ·)
end

/-- Apply `fill` to the child list of an element node. -/
def mapElemChildren (fill : List Node → List Node) : Node → Node
  | Node.text s => Node.text s
  | Node.elem t a cs => Node.elem t a (fill cs)

/-- The effect of the `DOMContentLoaded` handler shared by both
`registerModification` variants: `findOrCreateDocblock` followed by the
variant's sequence of `prepend` calls (`fill`, acting on the docblock's
child list).  When a `.docblock` element exists, its children are rewritten
by `fill`; otherwise, when a `.fqn` element exists, a toggle wrapper and a
fresh `div.docblock` (filled from an empty child list) are inserted after
it — the docblock is inserted first and the toggle wrapper second, so the
toggle wrapper ends up between the `.fqn` element and the docblock; when
neither exists the handler returns with the document untouched. -/
def applyContentLoaded (fill : List Node → List Node) (doc : List Node) : List Node :=
  match replaceFirstList isDocblock (mapElemChildren fill) doc with
  | some doc2 => doc2
  | none =>
    match insertAfterList isFqn
        [createToggleWrapper, createElement "DIV" [("class", "docblock")] (fill [])] doc with
    | some doc2 => doc2
    | none => doc

namespace Ts

/-- `createFirstSection` (identical in both halves of
`src/injection/index.ts`): Manifest link plus license. -/
def createFirstSection (manifestRelPath manifestHref license : String) : Node :=
  createElement "UL" []
    [createElement "LI" []
      [Node.text "Manifest: ",
       createElement "A" [("href", manifestHref)]
         [createElement "CODE" [] [Node.text manifestRelPath]]],
     createElement "LI" []
      [Node.text "License: ", createElement "CODE" [] [Node.text license]]]

/-- `createDependencySection` (identical in both halves of
`src/injection/index.ts`): a console code block with the install command. -/
def createDependencySection (cargoAddCommand : String) : Node :=
  createElement "PRE" []
    [createElement "CODE" [("class", "language-console")]
      [Node.text ("$ " ++ cargoAddCommand ++ "\n")]]

/-- `createCodeSizeSection` (identical in both halves of
`src/injection/index.ts`, lines 60-68 and 263-273): the `ul` receives only
`li1`; the `li2` the source creates is never appended. -/
def createCodeSizeSection (codeSizeUnmodified : String) : Node :=
  createElement "UL" []
    [createElement "LI" []
      [Node.text ("unmodified: " ++ codeSizeUnmodified ++ " KiB + (not yet implemented) KiB")]]

end Ts

namespace ModifyVariant

/-- `createVerifiedWithSection` of the `modifyDocblock` half of
`src/injection/index.ts` (lines 44-58): just the `ul` of pairs, with no
status line. -/
def createVerifiedWithSection (verifiedWith : List (String × String)) : Node :=
  createElement "UL" [] (verifiedWith.map verifiedItem)

/-- The sequence of `prepend` calls of `modifyDocblock`
(`src/injection/index.ts` lines 11-20), acting on the found docblock's
child list: `downgradeSectionHeaders` first, then each fragment consed on
in source order (so the last-prepended fragment ends up first). -/
def modifyDocblockChildren (manifestRelPath manifestHref license cargoAddCommand : String)
    (codeSizeUnmodified : Option String) (verifiedWith : List (String × String))
    (children : List Node) : List Node :=
  let c := downgradeList children
  let c := createHeader "Description" "description" :: c
  let c := createVerifiedWithSection verifiedWith :: c
  let c := createHeader "Verified with" "verified-with" :: c
  let c :=
    match codeSizeUnmodified with
    | some sz => createHeader "Code size" "code-size" :: Ts.createCodeSizeSection sz :: c
    | none => c
  let c := Ts.createDependencySection cargoAddCommand :: c
  Ts.createFirstSection manifestRelPath manifestHref license :: c

/-- `modifyDocblock` (`src/injection/index.ts` lines 1-22) at document
level: `document.querySelector(".docblock")`, and if an element is found
its children are rewritten by the prepend sequence; otherwise the document
is left untouched.  The function never consults the page location. -/
def modifyDocblock (manifestRelPath manifestHref license cargoAddCommand : String)
    (codeSizeUnmodified : Option String) (verifiedWith : List (String × String))
    (doc : List Node) : List Node :=
  match replaceFirstList isDocblock
      (mapElemChildren (modifyDocblockChildren manifestRelPath manifestHref license
        cargoAddCommand codeSizeUnmodified verifiedWith)) doc with
  | some doc2 => doc2
  | none => doc

end ModifyVariant

namespace RegisterVariant

/-- The sequence of `prepend` calls of the `DOMContentLoaded` handler of
`registerModification` (`src/injection/index.ts` lines 118-135), acting on
the docblock's child list. -/
def registerModificationChildren
    (manifestRelPath manifestHref license cargoAddCommand : String)
    (codeSizeUnmodified : Option String) (verifiedWith : List (String × String))
    (children : List Node) : List Node :=
  let c := downgradeList children
  let c := createHeader "Description" "description" :: c
  let c := createVerifiedWithSection verifiedWith :: c
  let c := createHeader "Verified with" "verified-with" :: c
  let c :=
    match codeSizeUnmodified with
    | some sz => createHeader "Code size" "code-size" :: Ts.createCodeSizeSection sz :: c
    | none => c
  let c := Ts.createDependencySection cargoAddCommand :: c
  Ts.createFirstSection manifestRelPath manifestHref license :: c

/-- `registerModification` (`src/injection/index.ts` lines 107-136) at
document level, with the page location's `pathname` made explicit: when the
pathname does not end in `"/index.html"` the function returns before
registering the handler; otherwise the `DOMContentLoaded` handler
(`findOrCreateDocblock` plus the prepend sequence) runs on the document. -/
def registerModification
    (pathname : String)
    (manifestRelPath manifestHref license cargoAddCommand : String)
    (codeSizeUnmodified : Option String) (verifiedWith : List (String × String))
    (doc : List Node) : List Node :=
  if !(locationEndsWith pathname "/index.html") then doc
  else
    applyContentLoaded
      (registerModificationChildren manifestRelPath manifestHref license cargoAddCommand
        codeSizeUnmodified verifiedWith) doc

end RegisterVariant

namespace ScriptVariant

/-- `createFirstSection` of `src/unnamed/part_000` (lines 177-190): a
"View on GitHub" link plus license. -/
def createFirstSection (manifestDirBlobURL license : String) : Node :=
  createElement "UL" []
    [createElement "LI" []
      [createElement "A" [("href", manifestDirBlobURL)] [Node.text "View on GitHub"]],
     createElement "LI" []
      [Node.text "License: ", createElement "CODE" [] [Node.text license]]]

/-- `createDependenciesSection` of `src/unnamed/part_000` (lines 154-168):
the literal string `"No dependencies."` (which `prepend` turns into a text
node) for an empty list, otherwise a `ul` of links built by the
`for (const [text, href] of items)` loop. -/
def createDependenciesSection (items : List (String × String)) : Node :=
  if items.length = 0 then Node.text "No dependencies."
  else
    createElement "UL" []
      (items.map fun it =>
        createElement "LI" []
          [createElement "A" [("href", it.2)] [Node.text it.1]])

/-- `createCargoAddCommandSection` of `src/unnamed/part_000`
(lines 169-176). -/
def createCargoAddCommandSection (cargoAddCommand : String) : Node :=
  createElement "PRE" []
    [createElement "CODE" [("class", "language-console")]
      [Node.text ("$ " ++ cargoAddCommand ++ "\n")]]

/-- The middle content of `li1` of `createCodeSizeSection` in
`src/unnamed/part_000` (lines 131-141): a number is formatted as
`Math.floor(n / 1024)` KiB plus a tenths digit `Math.floor(10 * rem / 1024)`
in a single text append (the source's leading `"" +` is the JS
number-to-string coercion, rendered here by `toString`); a string is
wrapped in a `code` element. -/
def codeSizeContent : Nat ⊕ String → Node
  | Sum.inl n =>
    Node.text (toString (n / 1024) ++ "." ++ toString (10 * (n % 1024) / 1024) ++ " KiB")
  | Sum.inr s => createElement "CODE" [] [Node.text s]

/-- `createCodeSizeSection` of `src/unnamed/part_000` (lines 128-153):
`li1` carries the "unmodified" size, and `li2`, `li3` are the fixed
placeholder items; all three are appended to the `ul`. -/
def createCodeSizeSection (codeSizeUnmodified : Nat ⊕ String) : Node :=
  createElement "UL" []
    [createElement "LI" []
      [Node.text "unmodified: ",
       codeSizeContent codeSizeUnmodified,
       Node.text " + (not yet implemented) KiB"],
     createElement "LI" []
      [createElement "CODE" [] [Node.text "#[cfg]"],
       Node.text " resolved + (doc-)comment removed + Rustfmt: (not yet implemented)"],
     createElement "LI" []
      [createElement "CODE" [] [Node.text "#[cfg]"],
       Node.text " resolved + doc-comment removed + minified: (not yet implemented)"]]

/-- The sequence of `prepend` calls of the `DOMContentLoaded` handler of
`registerModification` in `src/unnamed/part_000` (lines 12-23), acting on
the docblock's child list. -/
def registerModificationChildren
    (manifestDirBlobURL license cargoAddCommand : String)
    (dependencyUL : List (String × String))
    (codeSizeUnmodified : Option (Nat ⊕ String))
    (verifiedWith : List (String × String))
    (children : List Node) : List Node :=
  let c := downgradeList children
  let c := createHeader "Description" "description" :: c
  let c := createVerifiedWithSection verifiedWith :: c
  let c := createHeader "Verified with" "verified-with" :: c
  let c :=
    match codeSizeUnmodified with
    | some sz => createHeader "Code size" "code-size" :: createCodeSizeSection sz :: c
    | none => c
  let c := createDependenciesSection dependencyUL :: c
  let c := createHeader "Dependencies" "dependencies" :: c
  let c := createCargoAddCommandSection cargoAddCommand :: c
  createFirstSection manifestDirBlobURL license :: c

/-- `registerModification` of `src/unnamed/part_000` (lines 3-25) at
document level, with the page location's `pathname` made explicit. -/
def registerModification
    (pathname : String)
    (manifestDirBlobURL license cargoAddCommand : String)
    (dependencyUL : List (String × String))
    (codeSizeUnmodified : Option (Nat ⊕ String))
    (verifiedWith : List (String × String))
    (doc : List Node) : List Node :=
  if !(locationEndsWith pathname "/index.html") then doc
  else
    applyContentLoaded
      (registerModificationChildren manifestDirBlobURL license cargoAddCommand dependencyUL
        codeSizeUnmodified verifiedWith) doc

end ScriptVariant

/-! ## Infrastructure lemmas -/

mutual
theorem Node.beq_iff : ∀ n m : Node, Node.beq n m = true ↔ n = m
  | Node.text _, Node.text _ => by
    simp [Node.beq]
  | Node.text _, Node.elem _ _ _ => by
    simp [Node.beq]
  | Node.elem _ _ _, Node.text _ => by
    simp [Node.beq]
  | Node.elem _ _ c1, Node.elem _ _ c2 => by
    simp [Node.beq, Node.beqList_iff c1 c2, and_assoc]

theorem Node.beqList_iff : ∀ ns ms : List Node, Node.beqList ns ms = true ↔ ns = ms
  | [], [] => by simp [Node.beqList]
  | [], _ :: _ => by simp [Node.beqList]
  | _ :: _, [] => by simp [Node.beqList]
  | n :: ns, m :: ms => by
    simp [Node.beqList, Node.beq_iff n m, Node.beqList_iff ns ms]
end

instance : DecidableEq Node := fun n m =>
  decidable_of_iff (Node.beq n m = true) (Node.beq_iff n m)

mutual
theorem downgradeNode_of_no_match :
    ∀ n : Node, existsMatchNode isSectionHeader n = false → downgradeNode n = n
  | Node.text _, _ => by simp [downgradeNode]
  | Node.elem t a cs, h => by
    simp [existsMatchNode, isSectionHeader] at h
    simp [downgradeNode, h.1, downgradeList_of_no_match cs h.2]

theorem downgradeList_of_no_match :
    ∀ ns : List Node, existsMatchList isSectionHeader ns = false → downgradeList ns = ns
  | [], _ => by simp [downgradeList]
  | n :: ns, h => by
    simp [existsMatchList] at h
    simp [downgradeList, downgradeNode_of_no_match n h.1, downgradeList_of_no_match ns h.2]
end

theorem downgradeList_getElem? :
    ∀ (ns : List Node) (i : Nat), (downgradeList ns)[i]? = ns[i]?.map downgradeNode
  | [], i => by simp [downgradeList]
  | n :: ns, 0 => by simp [downgradeList]
  | n :: ns, i + 1 => by simp [downgradeList, downgradeList_getElem? ns i]

mutual
theorem replaceFirstNode_of_no_match (p : Node → Bool) (f : Node → Node) :
    ∀ n : Node, existsMatchNode p n = false → replaceFirstNode p f n = none
  | Node.text _, _ => by simp [replaceFirstNode]
  | Node.elem t a cs, h => by
    simp [existsMatchNode] at h
    simp [replaceFirstNode, h.1, replaceFirstList_of_no_match p f cs h.2]

theorem replaceFirstList_of_no_match (p : Node → Bool) (f : Node → Node) :
    ∀ ns : List Node, existsMatchList p ns = false → replaceFirstList p f ns = none
  | [], _ => by simp [replaceFirstList]
  | n :: ns, h => by
    simp [existsMatchList] at h
    simp [replaceFirstList, replaceFirstNode_of_no_match p f n h.1,
      replaceFirstList_of_no_match p f ns h.2]
end

theorem root_false_of_no_match (p : Node → Bool) :
    ∀ n : Node, existsMatchNode p n = false → p n = false
  | Node.text s, h => by simpa [existsMatchNode] using h
  | Node.elem t a cs, h => by
    simp [existsMatchNode] at h
    exact h.1

mutual
theorem insertAfterNode_of_no_match (p : Node → Bool) (ins : List Node) :
    ∀ n : Node, existsMatchNode p n = false → insertAfterNode p ins n = none
  | Node.text _, _ => by simp [insertAfterNode]
  | Node.elem t a cs, h => by
    simp [existsMatchNode] at h
    simp [insertAfterNode, insertAfterList_of_no_match p ins cs h.2]

theorem insertAfterList_of_no_match (p : Node → Bool) (ins : List Node) :
    ∀ ns : List Node, existsMatchList p ns = false → insertAfterList p ins ns = none
  | [], _ => by simp [insertAfterList]
  | n :: ns, h => by
    simp [existsMatchList] at h
    simp [insertAfterList, root_false_of_no_match p n h.1,
      insertAfterNode_of_no_match p ins n h.1, insertAfterList_of_no_match p ins ns h.2]
end

theorem downgradeList_length : ∀ ns : List Node, (downgradeList ns).length = ns.length
  | [] => by simp [downgradeList]
  | n :: ns => by simp [downgradeList, downgradeList_length ns]

/-! ## Claims -/

/-- C1: After the routine runs on a page whose `.docblock` container
exists, the prepended fragments read top to bottom: first/metadata block,
dependency block, then (only when the code-size input is non-null) the
code-size heading followed by the code-size block, then the verified-with
heading, the verified-with block, and the description heading, immediately
above the (heading-downgraded) pre-existing container content — exactly the
reverse of the order in which the fragments are prepended.  In the part_000
variant the dependency slot between the first block and the code-size
heading carries that variant's dependency/install-command material: the
install-command block, the Dependencies heading and the dependency block. -/
theorem C1_prepended_block_order
    (manifestRelPath manifestHref manifestDirBlobURL license cargoAddCommand sz : String)
    (codeSizeScript : Nat ⊕ String)
    (dependencyUL : List (String × String))
    (verifiedWith : List (String × String)) (children : List Node) :
    ScriptVariant.registerModificationChildren manifestDirBlobURL license cargoAddCommand
        dependencyUL (some codeSizeScript) verifiedWith children =
      [ScriptVariant.createFirstSection manifestDirBlobURL license,
       ScriptVariant.createCargoAddCommandSection cargoAddCommand,
       createHeader "Dependencies" "dependencies",
       ScriptVariant.createDependenciesSection dependencyUL,
       createHeader "Code size" "code-size",
       ScriptVariant.createCodeSizeSection codeSizeScript,
       createHeader "Verified with" "verified-with",
       createVerifiedWithSection verifiedWith,
       createHeader "Description" "description"] ++ downgradeList children ∧
    ModifyVariant.modifyDocblockChildren manifestRelPath manifestHref license
        cargoAddCommand (some sz) verifiedWith children =
      [Ts.createFirstSection manifestRelPath manifestHref license,
       Ts.createDependencySection cargoAddCommand,
       createHeader "Code size" "code-size",
       Ts.createCodeSizeSection sz,
       createHeader "Verified with" "verified-with",
       ModifyVariant.createVerifiedWithSection verifiedWith,
       createHeader "Description" "description"] ++ downgradeList children ∧
    ModifyVariant.modifyDocblockChildren manifestRelPath manifestHref license
        cargoAddCommand none verifiedWith children =
      [Ts.createFirstSection manifestRelPath manifestHref license,
       Ts.createDependencySection cargoAddCommand,
       createHeader "Verified with" "verified-with",
       ModifyVariant.createVerifiedWithSection verifiedWith,
       createHeader "Description" "description"] ++ downgradeList children :=
  ⟨rfl, rfl, rfl⟩

/-- C2: the verification-status block opens with a warning marker and the
"not verified" sentence when the list is empty, a check marker with the
singular "verified with 1 solution" sentence for exactly one pair, and a
check marker with the plural "verified with N solutions" sentence (N the
list length) for two or more pairs; in every case it closes with a `ul`
holding one item per pair in input order, each rendering the problem
reference as a link followed by a "code" link to the solution reference. -/
theorem C2_verified_with_status :
    (createVerifiedWithSection [] =
      createElement "DIV" []
        [createElement "STRONG" []
          [createWarningMark, Node.text " This library is not verified."],
         createElement "UL" [] []]) ∧
    (∀ pr : String × String,
      createVerifiedWithSection [pr] =
        createElement "DIV" []
          [createHeavyCheckMark, Node.text " This library verified with 1 solution.",
           createElement "UL" [] [verifiedItem pr]]) ∧
    (∀ verifiedWith : List (String × String), 2 ≤ verifiedWith.length →
      createVerifiedWithSection verifiedWith =
        createElement "DIV" []
          [createHeavyCheckMark,
           Node.text (" This library verified with " ++ toString verifiedWith.length
             ++ " solutions."),
           createElement "UL" [] (verifiedWith.map verifiedItem)]) ∧
    (∀ pr : String × String,
      verifiedItem pr =
        createElement "LI" []
          [createElement "A" [("href", pr.1)] [Node.text pr.1],
           Node.text " (",
           createElement "A" [("href", pr.2)] [Node.text "code"],
           Node.text ")"]) := by
  refine ⟨rfl, fun pr => rfl, ?_, fun pr => rfl⟩
  intro vw h
  rcases vw with _ | ⟨a, _ | ⟨b, rest⟩⟩
  · simp at h
  · simp at h
  · rfl

/-- Witness for C2 at a concrete two-pair list. -/
theorem C2_verified_with_status_witness :
    2 ≤ ([("p1", "b1"), ("p2", "b2")] : List (String × String)).length ∧
    createVerifiedWithSection [("p1", "b1"), ("p2", "b2")] =
      createElement "DIV" []
        [createHeavyCheckMark, Node.text " This library verified with 2 solutions.",
         createElement "UL" [] [verifiedItem ("p1", "b1"), verifiedItem ("p2", "b2")]] :=
  ⟨by decide,
   (C2_verified_with_status.2.2.1 [("p1", "b1"), ("p2", "b2")] (by decide)).trans (by decide)⟩

/-- C3: the heading-downgrade pass replaces every element marked
`section-header` by an element whose tag is mapped H1→H2, H2→H3, H3→H4,
H4→H5, H5→H6 (other tags, H6 included, unchanged), carrying the same
attribute list and the same child nodes in the same order (the children
verbatim whenever none of them is itself a marked header, and otherwise
themselves rewritten by the same pass), and every node keeps its position:
the rewritten list has the same length and its i-th entry is the rewrite of
the original i-th entry. -/
theorem C3_downgrade_replacement :
    (∀ t a cs, classListContains a "section-header" = true →
      downgradeNode (Node.elem t a cs) = Node.elem (mapHeaderTag t) a (downgradeList cs)) ∧
    (∀ t a cs, classListContains a "section-header" = true →
      existsMatchList isSectionHeader cs = false →
      downgradeNode (Node.elem t a cs) = Node.elem (mapHeaderTag t) a cs) ∧
    mapHeaderTag "H1" = "H2" ∧ mapHeaderTag "H2" = "H3" ∧ mapHeaderTag "H3" = "H4" ∧
    mapHeaderTag "H4" = "H5" ∧ mapHeaderTag "H5" = "H6" ∧ mapHeaderTag "H6" = "H6" ∧
    (∀ t, t ≠ "H1" → t ≠ "H2" → t ≠ "H3" → t ≠ "H4" → t ≠ "H5" → mapHeaderTag t = t) ∧
    (∀ ns : List Node, (downgradeList ns).length = ns.length) ∧
    (∀ (ns : List Node) (i : Nat), (downgradeList ns)[i]? = ns[i]?.map downgradeNode) := by
  refine ⟨?_, ?_, rfl, rfl, rfl, rfl, rfl, rfl, ?_, downgradeList_length, downgradeList_getElem?⟩
  · intro t a cs h
    simp [downgradeNode, h]
  · intro t a cs h hn
    simp [downgradeNode, h, downgradeList_of_no_match cs hn]
  · intro t h1 h2 h3 h4 h5
    rw [mapHeaderTag.eq_def]
    split <;> simp_all

/-- Witness for C3 at a concrete marked H3 heading with an extra attribute
and a plain text child. -/
theorem C3_downgrade_replacement_witness :
    classListContains [("class", "section-header"), ("data-k", "v")] "section-header" = true ∧
    existsMatchList isSectionHeader [Node.text "T"] = false ∧
    downgradeNode
        (Node.elem "H3" [("class", "section-header"), ("data-k", "v")] [Node.text "T"]) =
      Node.elem (mapHeaderTag "H3") [("class", "section-header"), ("data-k", "v")]
        [Node.text "T"] :=
  ⟨by decide, by decide,
   C3_downgrade_replacement.2.1 "H3" [("class", "section-header"), ("data-k", "v")]
     [Node.text "T"] (by decide) (by decide)⟩

/-- C4: a numeric code-size input of `b` bytes renders as
`floor(b/1024) ++ "." ++ floor(10*(b mod 1024)/1024) ++ " KiB"` — in
particular 1536 ↦ "1.5 KiB", 1024 ↦ "1.0 KiB", 0 ↦ "0.0 KiB" and
1000 ↦ "0.9 KiB" — while a string input is rendered as literal code text
inside a `code` element. -/
theorem C4_code_size_rendering :
    (∀ b : Nat,
      ScriptVariant.createCodeSizeSection (Sum.inl b) =
        createElement "UL" []
          [createElement "LI" []
            [Node.text "unmodified: ",
             Node.text (toString (b / 1024) ++ "." ++ toString (10 * (b % 1024) / 1024)
               ++ " KiB"),
             Node.text " + (not yet implemented) KiB"],
           createElement "LI" []
            [createElement "CODE" [] [Node.text "#[cfg]"],
             Node.text " resolved + (doc-)comment removed + Rustfmt: (not yet implemented)"],
           createElement "LI" []
            [createElement "CODE" [] [Node.text "#[cfg]"],
             Node.text " resolved + doc-comment removed + minified: (not yet implemented)"]]) ∧
    ScriptVariant.codeSizeContent (Sum.inl 1536) = Node.text "1.5 KiB" ∧
    ScriptVariant.codeSizeContent (Sum.inl 1024) = Node.text "1.0 KiB" ∧
    ScriptVariant.codeSizeContent (Sum.inl 0) = Node.text "0.0 KiB" ∧
    ScriptVariant.codeSizeContent (Sum.inl 1000) = Node.text "0.9 KiB" ∧
    (∀ s : String,
      ScriptVariant.createCodeSizeSection (Sum.inr s) =
        createElement "UL" []
          [createElement "LI" []
            [Node.text "unmodified: ",
             createElement "CODE" [] [Node.text s],
             Node.text " + (not yet implemented) KiB"],
           createElement "LI" []
            [createElement "CODE" [] [Node.text "#[cfg]"],
             Node.text " resolved + (doc-)comment removed + Rustfmt: (not yet implemented)"],
           createElement "LI" []
            [createElement "CODE" [] [Node.text "#[cfg]"],
             Node.text " resolved + doc-comment removed + minified: (not yet implemented)"]]) :=
  ⟨fun b => rfl, by decide, by decide, by decide, by decide, fun s => rfl⟩

/-- C5: when the page contains neither a `.docblock` container nor a `.fqn`
anchor element, `registerModification` returns without performing any
mutation — the document after the call equals the document before it — in
both the part_000 variant and the index.ts `registerModification` variant. -/
theorem C5_no_anchor_no_mutation
    (pathname manifestDirBlobURL manifestRelPath manifestHref license cargoAddCommand : String)
    (dependencyUL verifiedWith : List (String × String))
    (codeSizeScript : Option (Nat ⊕ String)) (codeSizeTs : Option String)
    (doc : List Node)
    (hdb : existsMatchList isDocblock doc = false)
    (hfqn : existsMatchList isFqn doc = false) :
    ScriptVariant.registerModification pathname manifestDirBlobURL license cargoAddCommand
        dependencyUL codeSizeScript verifiedWith doc = doc ∧
    RegisterVariant.registerModification pathname manifestRelPath manifestHref license
        cargoAddCommand codeSizeTs verifiedWith doc = doc := by
  have happly : ∀ fill : List Node → List Node, applyContentLoaded fill doc = doc := by
    intro fill
    unfold applyContentLoaded
    rw [replaceFirstList_of_no_match _ _ doc hdb, insertAfterList_of_no_match _ _ doc hfqn]
  constructor
  · unfold ScriptVariant.registerModification
    split
    · rfl
    · exact happly _
  · unfold RegisterVariant.registerModification
    split
    · rfl
    · exact happly _

/-- Witness for C5 on a concrete page that has neither container nor
anchor, with a pathname that passes the entry gate. -/
theorem C5_no_anchor_no_mutation_witness :
    existsMatchList isDocblock
        [Node.elem "MAIN" [("class", "content")] [Node.text "body"]] = false ∧
    existsMatchList isFqn
        [Node.elem "MAIN" [("class", "content")] [Node.text "body"]] = false ∧
    ScriptVariant.registerModification "/crate/index.html" "u" "MIT" "cargo add x" [] none []
        [Node.elem "MAIN" [("class", "content")] [Node.text "body"]] =
      [Node.elem "MAIN" [("class", "content")] [Node.text "body"]] :=
  ⟨by decide, by decide,
   (C5_no_anchor_no_mutation "/crate/index.html" "u" "m" "h" "MIT" "cargo add x" [] [] none
      none [Node.elem "MAIN" [("class", "content")] [Node.text "body"]]
      (by decide) (by decide)).1⟩

/-- C6 (amended): in the part_000 variant, for every non-null code-size
input, the code-size block holds — after the "unmodified" line item — the
two fixed placeholder line items (post-`#[cfg]`-resolution and minified);
in the index.ts variants (both halves) the block holds only the
"unmodified" item, with no placeholders. -/
theorem C6_placeholder_items (codeSizeUnmodified : Nat ⊕ String) (s : String) :
    (ScriptVariant.createCodeSizeSection codeSizeUnmodified).childNodes =
      [createElement "LI" []
        [Node.text "unmodified: ", ScriptVariant.codeSizeContent codeSizeUnmodified,
         Node.text " + (not yet implemented) KiB"],
       createElement "LI" []
        [createElement "CODE" [] [Node.text "#[cfg]"],
         Node.text " resolved + (doc-)comment removed + Rustfmt: (not yet implemented)"],
       createElement "LI" []
        [createElement "CODE" [] [Node.text "#[cfg]"],
         Node.text " resolved + doc-comment removed + minified: (not yet implemented)"]] ∧
    (Ts.createCodeSizeSection s).childNodes =
      [createElement "LI" []
        [Node.text ("unmodified: " ++ s ++ " KiB + (not yet implemented) KiB")]] :=
  ⟨rfl, rfl⟩

/-- C6 counterexample: in the index.ts variants the code-size block for the
input "1.5" holds exactly one line item — no placeholder items follow the
"unmodified" item, so the claim fails on the index.ts sources it cites. -/
theorem C6_counterexample :
    (Ts.createCodeSizeSection "1.5").childNodes =
      [createElement "LI" [] [Node.text "unmodified: 1.5 KiB + (not yet implemented) KiB"]] ∧
    (Ts.createCodeSizeSection "1.5").childNodes.length = 1 :=
  ⟨by decide, by decide⟩

/-- C7 (amended): both `registerModification` variants consult the page
path first and are guaranteed no-ops whenever it does not end in
"/index.html"; the `modifyDocblock` variant of index.ts, however, never
consults the path and modifies any page whose container exists. -/
theorem C7_pathname_gate
    (pathname manifestDirBlobURL manifestRelPath manifestHref license cargoAddCommand : String)
    (dependencyUL verifiedWith : List (String × String))
    (codeSizeScript : Option (Nat ⊕ String)) (codeSizeTs : Option String)
    (doc : List Node)
    (h : locationEndsWith pathname "/index.html" = false) :
    ScriptVariant.registerModification pathname manifestDirBlobURL license cargoAddCommand
        dependencyUL codeSizeScript verifiedWith doc = doc ∧
    RegisterVariant.registerModification pathname manifestRelPath manifestHref license
        cargoAddCommand codeSizeTs verifiedWith doc = doc := by
  constructor
  · unfold ScriptVariant.registerModification
    simp [h]
  · unfold RegisterVariant.registerModification
    simp [h]

/-- Witness for C7 on a concrete pathname that does not end in
"/index.html". -/
theorem C7_pathname_gate_witness :
    locationEndsWith "/crate/struct.Foo.html" "/index.html" = false ∧
    ScriptVariant.registerModification "/crate/struct.Foo.html" "u" "MIT" "cargo add x"
        [] none [] [Node.elem "DIV" [("class", "docblock")] [Node.text "old"]] =
      [Node.elem "DIV" [("class", "docblock")] [Node.text "old"]] :=
  ⟨by decide,
   (C7_pathname_gate "/crate/struct.Foo.html" "u" "m" "h" "MIT" "cargo add x" [] [] none none
      [Node.elem "DIV" [("class", "docblock")] [Node.text "old"]] (by decide)).1⟩

/-- C7 counterexample: `modifyDocblock` (index.ts lines 1-22) ignores the
page location.  On a page whose path is "/crate/lib.html" — which does not
end in "/index.html" — it still mutates a document holding a `.docblock`
container, so the claim's guaranteed no-op fails for that entry routine. -/
theorem C7_counterexample :
    locationEndsWith "/crate/lib.html" "/index.html" = false ∧
    ModifyVariant.modifyDocblock "Cargo.toml" "https://h" "MIT" "cargo add x" none []
        [Node.elem "DIV" [("class", "docblock")] []] ≠
      [Node.elem "DIV" [("class", "docblock")] []] :=
  ⟨by decide, by decide⟩

/-- C9: an empty dependency list renders as the literal "No dependencies."
string, a non-empty list as a `ul` with one link item per (label, link)
pair in input order — href the pair's link, text its label — and the
install-command configuration as a shell-prompt code block containing "$ "
followed by the command (in both the part_000 and the index.ts shape). -/
theorem C9_dependency_rendering :
    (ScriptVariant.createDependenciesSection [] = Node.text "No dependencies.") ∧
    (∀ items : List (String × String), items ≠ [] →
      ScriptVariant.createDependenciesSection items =
        createElement "UL" []
          (items.map fun it =>
            createElement "LI" [] [createElement "A" [("href", it.2)] [Node.text it.1]])) ∧
    (∀ cargoAddCommand : String,
      ScriptVariant.createCargoAddCommandSection cargoAddCommand =
        createElement "PRE" []
          [createElement "CODE" [("class", "language-console")]
            [Node.text ("$ " ++ cargoAddCommand ++ "\n")]]) ∧
    (∀ cargoAddCommand : String,
      Ts.createDependencySection cargoAddCommand =
        createElement "PRE" []
          [createElement "CODE" [("class", "language-console")]
            [Node.text ("$ " ++ cargoAddCommand ++ "\n")]]) := by
  refine ⟨rfl, ?_, fun c => rfl, fun c => rfl⟩
  intro items h
  have hlen : ¬ items.length = 0 := by simpa [List.length_eq_zero] using h
  simp [ScriptVariant.createDependenciesSection, hlen]

/-- Witness for C9 at a concrete one-entry dependency list. -/
theorem C9_dependency_rendering_witness :
    ([("serde", "https://docs.rs/serde")] : List (String × String)) ≠ [] ∧
    ScriptVariant.createDependenciesSection [("serde", "https://docs.rs/serde")] =
      createElement "UL" []
        [createElement "LI" []
          [createElement "A" [("href", "https://docs.rs/serde")] [Node.text "serde"]]] :=
  ⟨by decide,
   (C9_dependency_rendering.2.1 [("serde", "https://docs.rs/serde")] (by decide)).trans
     (by decide)⟩

/-- C8: with a null code-size input the prepended content holds neither the
code-size heading (no prepended node carries the "code-size" id, and none
equals the heading node) nor a code-size block (no prepended node equals
the block for any input), and the rest of the output is unaffected: the
non-null output is exactly the null output with the code-size heading and
block inserted — at positions 2 and 3 in the `modifyDocblock` variant of
index.ts, and at positions 4 and 5 in the part_000 `registerModification`
variant. -/
theorem C8_null_code_size
    (manifestRelPath manifestHref manifestDirBlobURL license cargoAddCommand : String)
    (dependencyUL verifiedWith : List (String × String)) (children : List Node) :
    (ModifyVariant.modifyDocblockChildren manifestRelPath manifestHref license
        cargoAddCommand none verifiedWith children =
      [Ts.createFirstSection manifestRelPath manifestHref license,
       Ts.createDependencySection cargoAddCommand,
       createHeader "Verified with" "verified-with",
       ModifyVariant.createVerifiedWithSection verifiedWith,
       createHeader "Description" "description"] ++ downgradeList children) ∧
    (∀ n ∈ [Ts.createFirstSection manifestRelPath manifestHref license,
        Ts.createDependencySection cargoAddCommand,
        createHeader "Verified with" "verified-with",
        ModifyVariant.createVerifiedWithSection verifiedWith,
        createHeader "Description" "description"],
      n.getAttr "id" ≠ some "code-size" ∧
      n ≠ createHeader "Code size" "code-size" ∧
      ∀ s, n ≠ Ts.createCodeSizeSection s) ∧
    (∀ s, ModifyVariant.modifyDocblockChildren manifestRelPath manifestHref license
          cargoAddCommand (some s) verifiedWith children =
        (ModifyVariant.modifyDocblockChildren manifestRelPath manifestHref license
          cargoAddCommand none verifiedWith children).take 2 ++
        [createHeader "Code size" "code-size", Ts.createCodeSizeSection s] ++
        (ModifyVariant.modifyDocblockChildren manifestRelPath manifestHref license
          cargoAddCommand none verifiedWith children).drop 2) ∧
    (ScriptVariant.registerModificationChildren manifestDirBlobURL license cargoAddCommand
        dependencyUL none verifiedWith children =
      [ScriptVariant.createFirstSection manifestDirBlobURL license,
       ScriptVariant.createCargoAddCommandSection cargoAddCommand,
       createHeader "Dependencies" "dependencies",
       ScriptVariant.createDependenciesSection dependencyUL,
       createHeader "Verified with" "verified-with",
       createVerifiedWithSection verifiedWith,
       createHeader "Description" "description"] ++ downgradeList children) ∧
    (∀ n ∈ [ScriptVariant.createFirstSection manifestDirBlobURL license,
        ScriptVariant.createCargoAddCommandSection cargoAddCommand,
        createHeader "Dependencies" "dependencies",
        ScriptVariant.createDependenciesSection dependencyUL,
        createHeader "Verified with" "verified-with",
        createVerifiedWithSection verifiedWith,
        createHeader "Description" "description"],
      n.getAttr "id" ≠ some "code-size" ∧
      n ≠ createHeader "Code size" "code-size" ∧
      ∀ sz, n ≠ ScriptVariant.createCodeSizeSection sz) ∧
    (∀ sz, ScriptVariant.registerModificationChildren manifestDirBlobURL license
          cargoAddCommand dependencyUL (some sz) verifiedWith children =
        (ScriptVariant.registerModificationChildren manifestDirBlobURL license
          cargoAddCommand dependencyUL none verifiedWith children).take 4 ++
        [createHeader "Code size" "code-size", ScriptVariant.createCodeSizeSection sz] ++
        (ScriptVariant.registerModificationChildren manifestDirBlobURL license
          cargoAddCommand dependencyUL none verifiedWith children).drop 4) := by
  refine ⟨rfl, ?_, fun s => rfl, rfl, ?_, fun sz => rfl⟩
  · intro n hn
    simp only [List.mem_cons, List.not_mem_nil, or_false] at hn
    rcases hn with h | h | h | h | h <;> subst h
    · exact ⟨by simp [Ts.createFirstSection, createElement, Node.getAttr],
        by simp [Ts.createFirstSection, createHeader, createElement],
        fun s => by simp [Ts.createFirstSection, Ts.createCodeSizeSection, createElement]⟩
    · exact ⟨by simp [Ts.createDependencySection, createElement, Node.getAttr],
        by simp [Ts.createDependencySection, createHeader, createElement],
        fun s => by simp [Ts.createDependencySection, Ts.createCodeSizeSection, createElement]⟩
    · exact ⟨by simp [createHeader, createElement, Node.getAttr, List.lookup],
        by simp [createHeader, createElement],
        fun s => by simp [createHeader, Ts.createCodeSizeSection, createElement]⟩
    · refine ⟨by simp [ModifyVariant.createVerifiedWithSection, createElement, Node.getAttr],
        by simp [ModifyVariant.createVerifiedWithSection, createHeader, createElement], ?_⟩
      intro s
      rcases verifiedWith with _ | ⟨pr, rest⟩ <;>
        simp [ModifyVariant.createVerifiedWithSection, Ts.createCodeSizeSection, createElement,
          verifiedItem]
    · exact ⟨by simp [createHeader, createElement, Node.getAttr, List.lookup],
        by simp [createHeader, createElement],
        fun s => by simp [createHeader, Ts.createCodeSizeSection, createElement]⟩
  · intro n hn
    simp only [List.mem_cons, List.not_mem_nil, or_false] at hn
    rcases hn with h | h | h | h | h | h | h <;> subst h
    · exact ⟨by simp [ScriptVariant.createFirstSection, createElement, Node.getAttr],
        by simp [ScriptVariant.createFirstSection, createHeader, createElement],
        fun sz => by simp [ScriptVariant.createFirstSection, ScriptVariant.createCodeSizeSection,
          createElement]⟩
    · exact ⟨by simp [ScriptVariant.createCargoAddCommandSection, createElement, Node.getAttr],
        by simp [ScriptVariant.createCargoAddCommandSection, createHeader, createElement],
        fun sz => by simp [ScriptVariant.createCargoAddCommandSection,
          ScriptVariant.createCodeSizeSection, createElement]⟩
    · exact ⟨by simp [createHeader, createElement, Node.getAttr, List.lookup],
        by simp [createHeader, createElement],
        fun sz => by simp [createHeader, ScriptVariant.createCodeSizeSection, createElement]⟩
    · refine ⟨?_, ?_, ?_⟩
      · rcases dependencyUL with _ | ⟨it, rest⟩ <;>
          simp [ScriptVariant.createDependenciesSection, createElement, Node.getAttr]
      · rcases dependencyUL with _ | ⟨it, rest⟩ <;>
          simp [ScriptVariant.createDependenciesSection, createHeader, createElement]
      · intro sz
        rcases dependencyUL with _ | ⟨it, rest⟩ <;>
          simp [ScriptVariant.createDependenciesSection, ScriptVariant.createCodeSizeSection,
            createElement]
    · exact ⟨by simp [createHeader, createElement, Node.getAttr, List.lookup],
        by simp [createHeader, createElement],
        fun sz => by simp [createHeader, ScriptVariant.createCodeSizeSection, createElement]⟩
    · refine ⟨by simp [createVerifiedWithSection, createElement, Node.getAttr],
        by simp [createVerifiedWithSection, createHeader, createElement], ?_⟩
      intro sz
      simp [createVerifiedWithSection, ScriptVariant.createCodeSizeSection, createElement]
    · exact ⟨by simp [createHeader, createElement, Node.getAttr, List.lookup],
        by simp [createHeader, createElement],
        fun sz => by simp [createHeader, ScriptVariant.createCodeSizeSection, createElement]⟩

/-- Witness for C8 at concrete arguments, instantiating the membership
hypotheses at the index.ts dependency block and at the part_000
Dependencies heading. -/
theorem C8_null_code_size_witness :
    (Ts.createDependencySection "cargo add x" ∈
      [Ts.createFirstSection "Cargo.toml" "https://h" "MIT",
       Ts.createDependencySection "cargo add x",
       createHeader "Verified with" "verified-with",
       ModifyVariant.createVerifiedWithSection [],
       createHeader "Description" "description"]) ∧
    ((Ts.createDependencySection "cargo add x").getAttr "id" ≠ some "code-size" ∧
      Ts.createDependencySection "cargo add x" ≠ createHeader "Code size" "code-size" ∧
      ∀ s, Ts.createDependencySection "cargo add x" ≠ Ts.createCodeSizeSection s) ∧
    (createHeader "Dependencies" "dependencies" ∈
      [ScriptVariant.createFirstSection "https://g" "MIT",
       ScriptVariant.createCargoAddCommandSection "cargo add x",
       createHeader "Dependencies" "dependencies",
       ScriptVariant.createDependenciesSection [],
       createHeader "Verified with" "verified-with",
       createVerifiedWithSection [],
       createHeader "Description" "description"]) ∧
    ((createHeader "Dependencies" "dependencies").getAttr "id" ≠ some "code-size" ∧
      createHeader "Dependencies" "dependencies" ≠ createHeader "Code size" "code-size" ∧
      ∀ sz, createHeader "Dependencies" "dependencies" ≠
        ScriptVariant.createCodeSizeSection sz) :=
  ⟨by decide,
   (C8_null_code_size "Cargo.toml" "https://h" "https://g" "MIT" "cargo add x" [] [] []).2.1
     (Ts.createDependencySection "cargo add x") (by decide),
   by decide,
   (C8_null_code_size "Cargo.toml" "https://h" "https://g" "MIT" "cargo add x" [] []
      []).2.2.2.2.1
     (createHeader "Dependencies" "dependencies") (by decide)⟩

/-- C10: every heading the routine injects is created as an H1 carrying the
same `section-header` marker class the downgrade pass selects on — the pass
would map it to H2 had it run on it — yet, because the pass runs before any
fragment is prepended and rewrites only the pre-existing container content,
each injected heading occurs verbatim (still H1) in the final content,
while the pre-existing content appears in downgraded form after the
fragments.  This holds in the index.ts `modifyDocblock` variant for its
Description, Verified-with and (when present) Code-size headings, and in
the part_000 `registerModification` variant for those plus its
variant-specific Dependencies heading. -/
theorem C10_injected_headings_remain_h1 :
    (∀ name id, (createHeader name id).tagName = "H1" ∧
      isSectionHeader (createHeader name id) = true ∧
      (downgradeNode (createHeader name id)).tagName = "H2") ∧
    (∀ (manifestRelPath manifestHref license cargoAddCommand sz : String)
        (verifiedWith : List (String × String)) (children : List Node),
      createHeader "Description" "description" ∈
        ModifyVariant.modifyDocblockChildren manifestRelPath manifestHref license
          cargoAddCommand (some sz) verifiedWith children ∧
      createHeader "Verified with" "verified-with" ∈
        ModifyVariant.modifyDocblockChildren manifestRelPath manifestHref license
          cargoAddCommand (some sz) verifiedWith children ∧
      createHeader "Code size" "code-size" ∈
        ModifyVariant.modifyDocblockChildren manifestRelPath manifestHref license
          cargoAddCommand (some sz) verifiedWith children ∧
      (ModifyVariant.modifyDocblockChildren manifestRelPath manifestHref license
          cargoAddCommand (some sz) verifiedWith children).drop 7 =
        downgradeList children) ∧
    (∀ (manifestRelPath manifestHref license cargoAddCommand : String)
        (verifiedWith : List (String × String)) (children : List Node),
      createHeader "Description" "description" ∈
        ModifyVariant.modifyDocblockChildren manifestRelPath manifestHref license
          cargoAddCommand none verifiedWith children ∧
      createHeader "Verified with" "verified-with" ∈
        ModifyVariant.modifyDocblockChildren manifestRelPath manifestHref license
          cargoAddCommand none verifiedWith children ∧
      (ModifyVariant.modifyDocblockChildren manifestRelPath manifestHref license
          cargoAddCommand none verifiedWith children).drop 5 =
        downgradeList children) ∧
    (∀ (manifestDirBlobURL license cargoAddCommand : String)
        (dependencyUL : List (String × String)) (sz : Nat ⊕ String)
        (verifiedWith : List (String × String)) (children : List Node),
      createHeader "Description" "description" ∈
        ScriptVariant.registerModificationChildren manifestDirBlobURL license cargoAddCommand
          dependencyUL (some sz) verifiedWith children ∧
      createHeader "Verified with" "verified-with" ∈
        ScriptVariant.registerModificationChildren manifestDirBlobURL license cargoAddCommand
          dependencyUL (some sz) verifiedWith children ∧
      createHeader "Code size" "code-size" ∈
        ScriptVariant.registerModificationChildren manifestDirBlobURL license cargoAddCommand
          dependencyUL (some sz) verifiedWith children ∧
      createHeader "Dependencies" "dependencies" ∈
        ScriptVariant.registerModificationChildren manifestDirBlobURL license cargoAddCommand
          dependencyUL (some sz) verifiedWith children ∧
      (ScriptVariant.registerModificationChildren manifestDirBlobURL license cargoAddCommand
          dependencyUL (some sz) verifiedWith children).drop 9 =
        downgradeList children) ∧
    (∀ (manifestDirBlobURL license cargoAddCommand : String)
        (dependencyUL : List (String × String))
        (verifiedWith : List (String × String)) (children : List Node),
      createHeader "Description" "description" ∈
        ScriptVariant.registerModificationChildren manifestDirBlobURL license cargoAddCommand
          dependencyUL none verifiedWith children ∧
      createHeader "Verified with" "verified-with" ∈
        ScriptVariant.registerModificationChildren manifestDirBlobURL license cargoAddCommand
          dependencyUL none verifiedWith children ∧
      createHeader "Dependencies" "dependencies" ∈
        ScriptVariant.registerModificationChildren manifestDirBlobURL license cargoAddCommand
          dependencyUL none verifiedWith children ∧
      (ScriptVariant.registerModificationChildren manifestDirBlobURL license cargoAddCommand
          dependencyUL none verifiedWith children).drop 7 =
        downgradeList children) := by
  have hcls : ∀ id : String,
      classListContains [("id", id), ("class", "section-header")] "section-header" = true := by
    intro id
    simp [classListContains, List.lookup]
    decide
  refine ⟨?_, ?_, ?_, ?_, ?_⟩
  · intro name id
    refine ⟨rfl, ?_, ?_⟩
    · simp [isSectionHeader, createHeader, createElement, hcls id]
    · simp [downgradeNode, createHeader, createElement, hcls id, mapHeaderTag, Node.tagName]
  · intro mrp mh lic cmd sz vw children
    refine ⟨?_, ?_, ?_, rfl⟩ <;>
      simp [ModifyVariant.modifyDocblockChildren]
  · intro mrp mh lic cmd vw children
    refine ⟨?_, ?_, rfl⟩ <;>
      simp [ModifyVariant.modifyDocblockChildren]
  · intro mdb lic cmd dul sz vw children
    refine ⟨?_, ?_, ?_, ?_, rfl⟩ <;>
      simp [ScriptVariant.registerModificationChildren]
  · intro mdb lic cmd dul vw children
    refine ⟨?_, ?_, ?_, rfl⟩ <;>
      simp [ScriptVariant.registerModificationChildren]
